import Mathlib

/-!
Verification of `src/server.js` (primepro-server): a shallow embedding of
the Express route handlers, the Mongoose record store, the Cloudinary
upload result, and the Nodemailer call, with theorems about the
behaviours the specification claims.

Strings are modelled by Lean `String`/`List Char` (the ASCII fragment of
JavaScript strings); dates and ids are `Nat`; `undefined` request-body
fields are `Option.none`.
-/

namespace PrimeproServer

/-! ### Slug computation (server.js line 213)

`const slug = title.toLowerCase().replace(/[^a-z0-9]+/g, '-').replace(/(^-|-$)/g, '');`
-/

/-- The character class `[a-z0-9]` of the regex `/[^a-z0-9]+/g`. -/
def isSlugChar (c : Char) : Bool :=
  ('a' ≤ c && c ≤ 'z') || ('0' ≤ c && c ≤ '9')

/-- Prepend `'-'` to `l` unless `l` already starts with `'-'`.  Used so
that a run of consecutive non-`[a-z0-9]` characters contributes a single
`'-'`, as the `+` in `/[^a-z0-9]+/g` does. -/
def mergeDash (l : List Char) : List Char :=
  if l.head? = some '-' then l else '-' :: l

/-- `.replace(/[^a-z0-9]+/g, '-')`: every maximal run of characters not
in `[a-z0-9]` is replaced by a single `'-'`. -/
def collapse : List Char → List Char
  | [] => []
  | c :: cs => if isSlugChar c then c :: collapse cs else mergeDash (collapse cs)

/-- One removal of the `^-` alternative of `.replace(/(^-|-$)/g, '')`:
drop a single leading `'-'`. -/
def dropLeadDash (l : List Char) : List Char :=
  if l.head? = some '-' then l.tail else l

/-- `.replace(/(^-|-$)/g, '')`: the regex can match only at position `0`
(`^-`) and at the last character (`-$`), so it removes one leading and
one trailing `'-'`. -/
def trimDashes (l : List Char) : List Char :=
  (dropLeadDash (dropLeadDash l).reverse).reverse

/-- server.js:213.  `Char.toLower` models the ASCII fragment of
JavaScript `toLowerCase` (any character the two functions treat
differently is outside `[a-z0-9]` both before and after lowering, so it
is replaced by `'-'` either way). -/
def slugify (t : String) : String :=
  ⟨trimDashes (collapse (t.data.map Char.toLower))⟩

/-- No two adjacent characters of `l` are both `'-'`. -/
def NoAdj (l : List Char) : Prop :=
  l.Chain' (fun a b => a ≠ '-' ∨ b ≠ '-')

/-! ### Data model (server.js lines 40-100)

Stored documents are modelled with their schema fields; schema
validation of required fields is not modelled (no claim depends on it).
The JavaScript `from` field of a chat message is called `sender` here
(`from` is a Lean keyword).
-/

abbrev Id := Nat

structure Contact where
  name : String
  email : String
  message : String
  date : Nat
deriving DecidableEq

structure BlogPost where
  title : String
  content : String
  excerpt : String
  author : String
  image : String
  tags : List String
  published : Bool
  date : Nat
  slug : String
deriving DecidableEq

structure Salary where
  min : Nat
  max : Nat
  currency : String
deriving DecidableEq

structure JobPosting where
  title : String
  company : String
  location : String
  type : String
  description : String
  requirements : List String
  benefits : List String
  salary : Option Salary
  applicationDeadline : Option Nat
  applyUrl : String
  isActive : Bool
  date : Nat
deriving DecidableEq

structure ChatMessage where
  sender : String
  text : String
  date : Nat
deriving DecidableEq

structure Product where
  name : String
  category : String
  description : String
  image : String
  date : Nat
deriving DecidableEq

/-! ### Record store operations (Mongoose) -/

/-- Mongoose `Model.findById(id)` over a store of id-keyed documents. -/
def findById (id : Id) (store : List (Id × α)) : Option α :=
  (store.find? (fun e => e.1 == id)).map (·.2)

/-- Mongoose `Model.findByIdAndDelete(id)`: the deleted document (null
when the id matches nothing — no error is raised) and the store
afterwards. -/
def findByIdAndDelete (id : Id) (store : List (Id × α)) :
    Option α × List (Id × α) :=
  (findById id store, store.filter (fun e => e.1 != id))

/-- Mongoose `Model.findByIdAndUpdate(id, upd, {new: true})`: the
updated document (null when the id matches nothing) and the store
afterwards.  `f` is the effect of setting the update document's fields
on a stored document. -/
def findByIdAndUpdate (id : Id) (f : α → α) (store : List (Id × α)) :
    Option α × List (Id × α) :=
  ((findById id store).map f,
   store.map (fun e => if e.1 == id then (e.1, f e.2) else e))

/-- Mongoose `.sort({date: -1})` — sort descending by `key`. -/
def sortDescBy (key : α → Nat) (l : List α) : List α :=
  @List.insertionSort α (fun a b => key b ≤ key a) (fun _ _ => Nat.decLe _ _) l

/-- Mongoose `.sort({date: 1})` — sort ascending by `key`. -/
def sortAscBy (key : α → Nat) (l : List α) : List α :=
  @List.insertionSort α (fun a b => key a ≤ key b) (fun _ _ => Nat.decLe _ _) l

/-! ### Request-body value coercions -/

/-- JavaScript `s.split(',')` over the character list of `s`. -/
def splitCommaAux (cur : List Char) : List Char → List (List Char)
  | [] => [cur.reverse]
  | c :: cs =>
    if c = ',' then cur.reverse :: splitCommaAux [] cs
    else splitCommaAux (c :: cur) cs

def isJsSpace (c : Char) : Bool :=
  c = ' ' || c = '\t' || c = '\n' || c = '\r'

/-- JavaScript `String.prototype.trim` (ASCII whitespace fragment). -/
def trimChars (l : List Char) : List Char :=
  ((l.dropWhile isJsSpace).reverse.dropWhile isJsSpace).reverse

/-- JavaScript `s.split(',').map(x => x.trim())`. -/
def splitTrim (s : String) : List String :=
  (splitCommaAux [] s.data).map (fun l => ⟨trimChars l⟩)

/-- A request-body value that may be a JSON boolean or a string, as
tested by `x === true || x === 'true'`. -/
inductive JBool
  | bool (b : Bool)
  | str (s : String)
deriving DecidableEq

/-- The test `x === true || x === 'true'` (an absent/`undefined` field
gives `false`). -/
def coerceFlag : Option JBool → Bool
  | some (.bool true) => true
  | some (.str s) => s == "true"
  | _ => false

/-- The expression `tags ? tags.split(',').map(tag => tag.trim()) : []`:
`undefined` and the empty string are falsy. -/
def normTags : Option String → List String
  | none => []
  | some s => if s = "" then [] else splitTrim s

/-- A request-body value for `requirements`/`benefits`: absent, a JSON
string, or a JSON array of strings. -/
inductive FieldVal
  | absent
  | str (s : String)
  | list (l : List String)
deriving DecidableEq

/-- POST /api/jobs, server.js:306-315:
`Array.isArray(v) ? v : v ? v.split(',').map(x => x.trim()) : []`. -/
def normCreate : FieldVal → List String
  | .list l => l
  | .str s => if s = "" then [] else splitTrim s
  | .absent => []

/-- PUT /api/jobs/:id, server.js:467-468:
`v ? v.split(',').map(x => x.trim()) : []`.  An array value is truthy
but has no `.split` method, so the handler throws (caught as a 500). -/
def normUpdate : FieldVal → Except Unit (List String)
  | .absent => .ok []
  | .str s => .ok (if s = "" then [] else splitTrim s)
  | .list _ => .error ()

/-! ### Route handlers -/

/-- Request body of POST/PUT `/api/blog` (absent fields are `none`). -/
structure BlogBody where
  title : Option String
  content : Option String
  author : Option String
  excerpt : Option String
  tags : Option String
  published : Option JBool
deriving DecidableEq

/-- The `updateData` object of PUT /api/blog/:id (server.js:409-417):
`tags` and `published` are always present; `image` is present exactly
when a file was uploaded (`imageUrl` truthy). -/
structure BlogUpdateData where
  title : Option String
  content : Option String
  author : Option String
  excerpt : Option String
  tags : List String
  published : Bool
  image : Option String
deriving DecidableEq

/-- Lines 391-417 of server.js: `imageUrl` is `''` without a file and
the upload's `secure_url` with one; the spread
`...(imageUrl && { image: imageUrl })` includes `image` exactly when
`imageUrl` is truthy (non-empty). -/
def mkBlogUpdateData (b : BlogBody) (file : Option String) : BlogUpdateData :=
  let imageUrl := match file with | none => "" | some u => u
  { title := b.title
    content := b.content
    author := b.author
    excerpt := b.excerpt
    tags := normTags b.tags
    published := coerceFlag b.published
    image := if imageUrl = "" then none else some imageUrl }

/-- Mongoose update semantics for `findByIdAndUpdate`: keys whose value
is `undefined` (here `none`) are stripped from the update document and
the stored value is kept; present keys overwrite the stored value. -/
def applyBlogUpdate (d : BlogUpdateData) (p : BlogPost) : BlogPost :=
  { title := d.title.getD p.title
    content := d.content.getD p.content
    excerpt := d.excerpt.getD p.excerpt
    author := d.author.getD p.author
    image := d.image.getD p.image
    tags := d.tags
    published := d.published
    date := p.date
    slug := p.slug }

/-- PUT /api/blog/:id (server.js:387-430), success path: status,
response document (`updatedPost` — null when the id is unknown), and the
store afterwards.  `file` is the uploaded file's Cloudinary
`secure_url`, when a file was sent.  The status is 200 whether or not
the id exists. -/
def putBlog (id : Id) (b : BlogBody) (file : Option String)
    (store : List (Id × BlogPost)) :
    Nat × Option BlogPost × List (Id × BlogPost) :=
  let r := findByIdAndUpdate id (applyBlogUpdate (mkBlogUpdateData b file)) store
  (200, r.1, r.2)

/-- DELETE /api/contact/:id (server.js:365-373): on the success path the
handler always answers 200, whether or not the id matched a document. -/
def deleteContact (id : Id) (store : List (Id × Contact)) :
    Nat × List (Id × Contact) :=
  let r := findByIdAndDelete id store
  (200, r.2)

/-- Request body of POST/PUT `/api/jobs` (absent fields are `none`). -/
structure JobBody where
  title : Option String
  company : Option String
  location : Option String
  type : Option String
  description : Option String
  requirements : FieldVal
  benefits : FieldVal
  salary : Option Salary
  applicationDeadline : Option Nat
  applyUrl : Option String
  isActive : Option JBool
deriving DecidableEq

/-- POST /api/jobs (server.js:285-327): the document saved on the
success path (`isActive` is not read from the body; the schema default
is `true`; `type` defaults to 'Full-time'; `date` to now). -/
def postJobDoc (b : JobBody) (now : Nat) : JobPosting :=
  { title := b.title.getD ""
    company := b.company.getD ""
    location := b.location.getD ""
    type := b.type.getD "Full-time"
    description := b.description.getD ""
    requirements := normCreate b.requirements
    benefits := normCreate b.benefits
    salary := b.salary
    applicationDeadline := b.applicationDeadline
    applyUrl := b.applyUrl.getD ""
    isActive := true
    date := now }

/-- The `updateData` object of PUT /api/jobs/:id (server.js:461-473),
built after the two `.split` normalizations succeeded. -/
structure JobUpdateData where
  title : Option String
  company : Option String
  location : Option String
  type : Option String
  description : Option String
  requirements : List String
  benefits : List String
  salary : Option Salary
  applicationDeadline : Option Nat
  applyUrl : Option String
  isActive : Bool
deriving DecidableEq

/-- Mongoose update semantics, as for `applyBlogUpdate`. -/
def applyJobUpdate (d : JobUpdateData) (j : JobPosting) : JobPosting :=
  { title := d.title.getD j.title
    company := d.company.getD j.company
    location := d.location.getD j.location
    type := d.type.getD j.type
    description := d.description.getD j.description
    requirements := d.requirements
    benefits := d.benefits
    salary := match d.salary with | none => j.salary | some s => some s
    applicationDeadline :=
      match d.applicationDeadline with
      | none => j.applicationDeadline
      | some x => some x
    applyUrl := d.applyUrl.getD j.applyUrl
    isActive := d.isActive
    date := j.date }

/-- PUT /api/jobs/:id (server.js:454-486).  If `requirements` or
`benefits` is an array the handler throws inside `.split` (caught: 500,
store untouched); otherwise it always answers 200, with a null document
for an unknown id. -/
def putJob (id : Id) (b : JobBody) (store : List (Id × JobPosting)) :
    Nat × Option JobPosting × List (Id × JobPosting) :=
  match normUpdate b.requirements, normUpdate b.benefits with
  | .ok reqs, .ok bens =>
    let d : JobUpdateData :=
      { title := b.title
        company := b.company
        location := b.location
        type := b.type
        description := b.description
        requirements := reqs
        benefits := bens
        salary := b.salary
        applicationDeadline := b.applicationDeadline
        applyUrl := b.applyUrl
        isActive := coerceFlag b.isActive }
    let r := findByIdAndUpdate id (applyJobUpdate d) store
    (200, r.1, r.2)
  | _, _ => (500, none, store)

/-- Request body of POST/PUT `/api/products`. -/
structure ProductBody where
  name : Option String
  category : Option String
  description : Option String
deriving DecidableEq

/-- Mongoose update semantics, as for `applyBlogUpdate`; `img` is the
`...(imageUrl && { image: imageUrl })` spread. -/
def applyProductUpdate (b : ProductBody) (img : Option String) (p : Product) :
    Product :=
  { name := b.name.getD p.name
    category := b.category.getD p.category
    description := b.description.getD p.description
    image := img.getD p.image
    date := p.date }

/-- PUT /api/products/:id (server.js:598-633). -/
def putProduct (id : Id) (b : ProductBody) (file : Option String)
    (store : List (Id × Product)) :
    Nat × Option Product × List (Id × Product) :=
  let imageUrl := match file with | none => "" | some u => u
  let img := if imageUrl = "" then none else some imageUrl
  let r := findByIdAndUpdate id (applyProductUpdate b img) store
  (200, r.1, r.2)

/-- GET /api/blog (server.js:149-157):
`BlogPost.find({published: true}).sort({date: -1})`. -/
def getBlog (store : List (Id × BlogPost)) : Nat × List BlogPost :=
  (200, sortDescBy BlogPost.date ((store.map (·.2)).filter (·.published)))

/-- GET /api/admin/blogs (server.js:539-546):
`BlogPost.find().sort({date: -1})`. -/
def getAdminBlogs (store : List (Id × BlogPost)) : Nat × List BlogPost :=
  (200, sortDescBy BlogPost.date (store.map (·.2)))

/-- GET /api/jobs (server.js:240-248):
`JobPosting.find({isActive: true}).sort({date: -1})`. -/
def getJobs (store : List (Id × JobPosting)) : Nat × List JobPosting :=
  (200, sortDescBy JobPosting.date ((store.map (·.2)).filter (·.isActive)))

/-- GET /api/admin/jobs (server.js:549-556):
`JobPosting.find().sort({date: -1})`. -/
def getAdminJobs (store : List (Id × JobPosting)) : Nat × List JobPosting :=
  (200, sortDescBy JobPosting.date (store.map (·.2)))

/-- GET /api/chat (server.js:334-342):
`ChatMessage.find().sort({date: 1})`. -/
def getChat (store : List (Id × ChatMessage)) : Nat × List ChatMessage :=
  (200, sortAscBy ChatMessage.date (store.map (·.2)))

/-- GET /api/contact (server.js:349-357):
`Contact.find().sort({date: -1})`. -/
def getContacts (store : List (Id × Contact)) : Nat × List Contact :=
  (200, sortDescBy Contact.date (store.map (·.2)))

/-- GET /api/products (server.js:559-566):
`Product.find().sort({date: -1})`. -/
def getProducts (store : List (Id × Product)) : Nat × List Product :=
  (200, sortDescBy Product.date (store.map (·.2)))

/-- GET /api/blog/:slug (server.js:166-177):
`BlogPost.findOne({slug: req.params.slug, published: true})`; 404 when
it yields nothing, 200 with the post otherwise. -/
def getBlogBySlug (slug : String) (store : List (Id × BlogPost)) :
    Nat × Option BlogPost :=
  match (store.map (·.2)).find? (fun p => p.slug == slug && p.published) with
  | some p => (200, some p)
  | none => (404, none)

/-- The two awaited side effects of POST /api/contact, in program
order. -/
inductive Step
  | save
  | mail
deriving DecidableEq

structure ContactCreateResult where
  status : Nat
  body : String
  trace : List Step
  persisted : Bool
deriving DecidableEq

/-- POST /api/contact (server.js:120-141).  `saveOk` / `mailOk` say
whether `newContact.save()` / `transporter.sendMail(...)` succeed;
`trace` lists the side effects that completed, in order.  A rejection of
either `await` jumps to the catch block, which answers 500 with the same
generic body in both cases; a failed `sendMail` does not un-save the
document. -/
def postContact (saveOk mailOk : Bool) : ContactCreateResult :=
  if saveOk then
    if mailOk then
      { status := 200, body := "Message sent successfully",
        trace := [Step.save, Step.mail], persisted := true }
    else
      { status := 500, body := "An error occurred",
        trace := [Step.save], persisted := true }
  else
    { status := 500, body := "An error occurred",
      trace := [], persisted := false }


/-! ### Concrete fixtures (used to instantiate theorems) -/

/-- A blog-update request body with every field absent. -/
def blogBodyEmpty : BlogBody :=
  { title := none, content := none, author := none, excerpt := none,
    tags := none, published := none }

/-- A job-update request body with every field absent. -/
def jobBodyEmpty : JobBody :=
  { title := none, company := none, location := none, type := none,
    description := none, requirements := .absent, benefits := .absent,
    salary := none, applicationDeadline := none, applyUrl := none,
    isActive := none }

/-- A product-update request body with every field absent. -/
def productBodyEmpty : ProductBody :=
  { name := none, category := none, description := none }

def postA : BlogPost :=
  { title := "A", content := "c", excerpt := "e", author := "au",
    image := "img", tags := ["x"], published := true, date := 3,
    slug := "a" }

def postB : BlogPost := { postA with title := "B" }

/-- An unpublished post whose slug is "s". -/
def postUnpub : BlogPost := { postA with published := false, slug := "s" }

/-- A published post whose slug is "s". -/
def postPub : BlogPost := { postA with slug := "s" }

def jobA : JobPosting :=
  { title := "t", company := "co", location := "lo", type := "Full-time",
    description := "d", requirements := [], benefits := [],
    salary := none, applicationDeadline := none, applyUrl := "u",
    isActive := true, date := 5 }

def prodA : Product :=
  { name := "n", category := "cat", description := "d", image := "img",
    date := 7 }

/-! ### Lemmas about the slug computation -/

theorem slugChar_ne_dash {c : Char} (h : isSlugChar c = true) : c ≠ '-' := by
  intro e
  subst e
  simp [isSlugChar] at h

theorem noAdj_mergeDash {l : List Char} (h : NoAdj l) : NoAdj (mergeDash l) := by
  unfold mergeDash
  split
  · exact h
  · rename_i hne
    refine List.chain'_cons'.mpr ⟨?_, h⟩
    intro y hy
    right
    intro e
    subst e
    cases l with
    | nil => simp at hy
    | cons a as =>
      simp at hy
      exact hne (by simp [hy])

theorem noAdj_collapse (l : List Char) : NoAdj (collapse l) := by
  induction l with
  | nil => exact List.chain'_nil
  | cons c cs ih =>
    simp only [collapse]
    split
    · rename_i hc
      refine List.chain'_cons'.mpr ⟨?_, ih⟩
      intro y _
      exact Or.inl (slugChar_ne_dash hc)
    · exact noAdj_mergeDash ih

theorem mem_mergeDash {l : List Char} {c : Char} (h : c ∈ mergeDash l) :
    c = '-' ∨ c ∈ l := by
  unfold mergeDash at h
  split at h
  · exact Or.inr h
  · rcases List.mem_cons.mp h with e | hm
    · exact Or.inl e
    · exact Or.inr hm

theorem mem_collapse {l : List Char} {c : Char} (h : c ∈ collapse l) :
    isSlugChar c = true ∨ c = '-' := by
  induction l with
  | nil => cases h
  | cons a as ih =>
    simp only [collapse] at h
    split at h
    · rename_i ha
      rcases List.mem_cons.mp h with e | hm
      · exact Or.inl (e ▸ ha)
      · exact ih hm
    · rcases mem_mergeDash h with e | hm
      · exact Or.inr e
      · exact ih hm

theorem mem_dropLeadDash {l : List Char} {c : Char} (h : c ∈ dropLeadDash l) :
    c ∈ l := by
  unfold dropLeadDash at h
  split at h
  · exact List.mem_of_mem_tail h
  · exact h

theorem mem_trimDashes {l : List Char} {c : Char} (h : c ∈ trimDashes l) :
    c ∈ l := by
  unfold trimDashes at h
  rw [List.mem_reverse] at h
  have h2 := mem_dropLeadDash h
  rw [List.mem_reverse] at h2
  exact mem_dropLeadDash h2

theorem head_dropLeadDash {l : List Char} (h : NoAdj l) :
    (dropLeadDash l).head? ≠ some '-' := by
  unfold dropLeadDash
  split
  · rename_i hh
    cases l with
    | nil => simp at hh
    | cons a as =>
      have ha : a = '-' := by simpa using hh
      subst ha
      cases as with
      | nil => simp
      | cons b bs =>
        have hr := (List.chain'_cons.mp h).1
        have hb : b ≠ '-' := hr.resolve_left (by simp)
        simpa using hb
  · rename_i hh
    exact hh

theorem noAdj_dropLeadDash {l : List Char} (h : NoAdj l) :
    NoAdj (dropLeadDash l) := by
  unfold dropLeadDash
  split
  · exact h.tail
  · exact h

theorem noAdj_reverse {l : List Char} (h : NoAdj l) : NoAdj l.reverse := by
  unfold NoAdj
  rw [List.chain'_reverse]
  exact h.imp (fun a b hab => hab.symm)

theorem getLast_dropLeadDash {l : List Char} (h : l.getLast? ≠ some '-') :
    (dropLeadDash l).getLast? ≠ some '-' := by
  unfold dropLeadDash
  split
  · cases l with
    | nil => simp
    | cons b bs =>
      cases bs with
      | nil => simp
      | cons c cs =>
        rw [List.tail_cons]
        rwa [List.getLast?_cons_cons] at h
  · exact h

theorem head_trimDashes {l : List Char} (h : NoAdj l) :
    (trimDashes l).head? ≠ some '-' := by
  unfold trimDashes
  rw [List.head?_reverse]
  apply getLast_dropLeadDash
  rw [List.getLast?_reverse]
  exact head_dropLeadDash h

theorem getLast_trimDashes {l : List Char} (h : NoAdj l) :
    (trimDashes l).getLast? ≠ some '-' := by
  unfold trimDashes
  rw [List.getLast?_reverse]
  exact head_dropLeadDash (noAdj_reverse (noAdj_dropLeadDash h))

theorem mergeDash_idem (l : List Char) : mergeDash (mergeDash l) = mergeDash l := by
  unfold mergeDash
  split
  · rfl
  · simp

theorem collapse_run (r rest : List Char) (hne : r ≠ [])
    (hns : ∀ c ∈ r, isSlugChar c = false) :
    collapse (r ++ rest) = mergeDash (collapse rest) := by
  induction r with
  | nil => exact absurd rfl hne
  | cons a as ih =>
    have ha : isSlugChar a = false := hns a (List.mem_cons_self a as)
    simp only [List.cons_append, collapse, ha, Bool.false_eq_true, if_false]
    cases as with
    | nil => simp
    | cons b bs =>
      rw [List.append_eq, ih (by simp) (fun c hc => hns c (List.mem_cons_of_mem a hc))]
      exact mergeDash_idem _
/-! ### Lemmas about the store operations -/

theorem perm_sortDescBy (key : α → Nat) (l : List α) :
    (sortDescBy key l).Perm l :=
  @List.perm_insertionSort α (fun a b => key b ≤ key a)
    (fun _ _ => Nat.decLe _ _) l

theorem perm_sortAscBy (key : α → Nat) (l : List α) :
    (sortAscBy key l).Perm l :=
  @List.perm_insertionSort α (fun a b => key a ≤ key b)
    (fun _ _ => Nat.decLe _ _) l

theorem mem_sortDescBy {key : α → Nat} {l : List α} {x : α} :
    x ∈ sortDescBy key l ↔ x ∈ l :=
  (perm_sortDescBy key l).mem_iff

theorem mem_sortAscBy {key : α → Nat} {l : List α} {x : α} :
    x ∈ sortAscBy key l ↔ x ∈ l :=
  (perm_sortAscBy key l).mem_iff

theorem sorted_sortDescBy (key : α → Nat) (l : List α) :
    List.Sorted (fun a b => key b ≤ key a) (sortDescBy key l) :=
  @List.sorted_insertionSort α (fun a b => key b ≤ key a)
    (fun _ _ => Nat.decLe _ _)
    ⟨fun a b => Nat.le_total (key b) (key a)⟩
    ⟨fun _ _ _ hab hbc => Nat.le_trans hbc hab⟩ l

theorem sorted_sortAscBy (key : α → Nat) (l : List α) :
    List.Sorted (fun a b => key a ≤ key b) (sortAscBy key l) :=
  @List.sorted_insertionSort α (fun a b => key a ≤ key b)
    (fun _ _ => Nat.decLe _ _)
    ⟨fun a b => Nat.le_total (key a) (key b)⟩
    ⟨fun _ _ _ hab hbc => Nat.le_trans hab hbc⟩ l

theorem findById_findByIdAndUpdate (id : Id) (f : α → α)
    (store : List (Id × α)) :
    findById id (findByIdAndUpdate id f store).2 = (findById id store).map f := by
  induction store with
  | nil => rfl
  | cons e es ih =>
    simp only [findByIdAndUpdate, findById, List.map_cons,
      List.find?_cons] at *
    cases he : (e.1 == id) with
    | true => simp [he]
    | false => simpa [he] using ih

/-! ### Claim theorems -/

/-- C1: for every blog title, the slug computed at blog.create
(server.js:213) contains only characters of `[a-z0-9-]` (in particular
it is lowercase), has no leading or trailing `'-'`, collapses every
maximal run of non-`[a-z0-9]` characters of the lowercased title into a
single `'-'`, and maps "Hello, World! 2024" to "hello-world-2024". -/
theorem C1_blog_slug (t : String) :
    (∀ c ∈ (slugify t).data, isSlugChar c = true ∨ c = '-')
    ∧ (slugify t).data.head? ≠ some '-'
    ∧ (slugify t).data.getLast? ≠ some '-'
    ∧ (∀ r rest : List Char, r ≠ [] → (∀ c ∈ r, isSlugChar c = false) →
        collapse (r ++ rest) = mergeDash (collapse rest))
    ∧ slugify "Hello, World! 2024" = "hello-world-2024" := by
  refine ⟨?_, ?_, ?_, collapse_run, by decide⟩
  · intro c hc
    exact mem_collapse (mem_trimDashes hc)
  · exact head_trimDashes (noAdj_collapse _)
  · exact getLast_trimDashes (noAdj_collapse _)

/-- Instantiation of `C1_blog_slug` at a concrete title and a concrete
run of non-alphanumeric characters. -/
theorem C1_blog_slug_witness :
    slugify "Hello, World! 2024" = "hello-world-2024"
    ∧ collapse ([',', ' '] ++ ['a']) = mergeDash (collapse ['a']) :=
  ⟨(C1_blog_slug "x").2.2.2.2,
   (C1_blog_slug "x").2.2.2.1 [',', ' '] ['a'] (by decide) (by decide)⟩

/-- C3: contact.create saves the document, then sends the email, then
answers; it answers 200 exactly when both side effects succeed, answers
500 on either failure, never reports the email as sent without the save
having completed first, and the two failure modes give the caller the
same status and body. -/
theorem C3_contact_create (s m : Bool) :
    ((postContact s m).status = 200 ↔ (s = true ∧ m = true))
    ∧ ((postContact s m).status = 200 ∨ (postContact s m).status = 500)
    ∧ ((postContact s m).trace = [Step.save, Step.mail]
        ↔ (postContact s m).status = 200)
    ∧ (Step.mail ∈ (postContact s m).trace ↔ (s = true ∧ m = true))
    ∧ ((postContact true false).status = (postContact false m).status
        ∧ (postContact true false).body = (postContact false m).body) := by
  cases s <;> cases m <;> decide

/-- C4: the public blog and jobs listings return only published /
active documents; the admin listings return every document regardless
of the flag. -/
theorem C4_visibility (bstore : List (Id × BlogPost))
    (jstore : List (Id × JobPosting)) :
    (∀ p ∈ (getBlog bstore).2, p.published = true)
    ∧ (∀ j ∈ (getJobs jstore).2, j.isActive = true)
    ∧ (∀ p : BlogPost, p ∈ (getAdminBlogs bstore).2 ↔ p ∈ bstore.map (·.2))
    ∧ (∀ j : JobPosting, j ∈ (getAdminJobs jstore).2 ↔ j ∈ jstore.map (·.2)) := by
  refine ⟨?_, ?_, ?_, ?_⟩
  · intro p hp
    simpa using (List.mem_filter.mp (mem_sortDescBy.mp hp)).2
  · intro j hj
    simpa using (List.mem_filter.mp (mem_sortDescBy.mp hj)).2
  · intro p
    exact mem_sortDescBy
  · intro j
    exact mem_sortDescBy

/-- Instantiation of `C4_visibility` at concrete stores: the published
post and the active job do appear in the public listings, and an
unpublished post appears in the admin listing. -/
theorem C4_visibility_witness :
    postA.published = true
    ∧ jobA.isActive = true
    ∧ postUnpub ∈ (getAdminBlogs [(1, postA), (2, postUnpub)]).2 := by
  have h := C4_visibility [(1, postA), (2, postUnpub)] [(1, jobA)]
  exact ⟨h.1 postA (by decide), h.2.1 jobA (by decide),
    (h.2.2.1 postUnpub).mpr (by decide)⟩

/-- C9: chat.list returns all messages sorted by non-decreasing
timestamp; contact.list and products.list return all their documents
sorted by non-increasing creation time. -/
theorem C9_list_ordering (mstore : List (Id × ChatMessage))
    (cstore : List (Id × Contact)) (pstore : List (Id × Product)) :
    List.Sorted (fun a b => a.date ≤ b.date) (getChat mstore).2
    ∧ (getChat mstore).2.Perm (mstore.map (·.2))
    ∧ List.Sorted (fun a b => b.date ≤ a.date) (getContacts cstore).2
    ∧ (getContacts cstore).2.Perm (cstore.map (·.2))
    ∧ List.Sorted (fun a b => b.date ≤ a.date) (getProducts pstore).2
    ∧ (getProducts pstore).2.Perm (pstore.map (·.2)) :=
  ⟨sorted_sortAscBy ChatMessage.date _, perm_sortAscBy _ _,
   sorted_sortDescBy Contact.date _, perm_sortDescBy _ _,
   sorted_sortDescBy Product.date _, perm_sortDescBy _ _⟩

/-- C2 fails on the code: at an id that resolves to no document, the
delete and update handlers do not answer 404 — DELETE /api/contact/:id
answers 200 "deleted successfully", and PUT /api/blog/:id and PUT
/api/jobs/:id answer 200 with a null document. -/
theorem C2_counterexample :
    ¬ ((deleteContact 0 ([] : List (Id × Contact))).1 = 404
       ∧ (putBlog 0 blogBodyEmpty none ([] : List (Id × BlogPost))).1 = 404
       ∧ (putJob 0 jobBodyEmpty ([] : List (Id × JobPosting))).1 = 404) := by
  decide

/-- C2 amended: when the id resolves to no document, DELETE
/api/contact/:id still answers 200, and PUT /api/blog/:id and PUT
/api/jobs/:id (for a body whose requirements/benefits are not arrays)
answer 200 with a null response document; NotFound is never reported by
these routes. -/
theorem C2_amended (id : Id) (cstore : List (Id × Contact))
    (bstore : List (Id × BlogPost)) (jstore : List (Id × JobPosting))
    (bb : BlogBody) (file : Option String) (jb : JobBody)
    (rs bs : List String)
    (hr : normUpdate jb.requirements = .ok rs)
    (hb : normUpdate jb.benefits = .ok bs) :
    (deleteContact id cstore).1 = 200
    ∧ (findById id bstore = none →
        (putBlog id bb file bstore).1 = 200
        ∧ (putBlog id bb file bstore).2.1 = none)
    ∧ (findById id jstore = none →
        (putJob id jb jstore).1 = 200 ∧ (putJob id jb jstore).2.1 = none) := by
  refine ⟨rfl, ?_, ?_⟩
  · intro h
    exact ⟨rfl, by simp [putBlog, findByIdAndUpdate, h]⟩
  · intro h
    simp [putJob, hr, hb, findByIdAndUpdate, h]

/-- Instantiation of `C2_amended` at the empty stores. -/
theorem C2_amended_witness :
    (deleteContact 0 ([] : List (Id × Contact))).1 = 200
    ∧ ((putBlog 0 blogBodyEmpty none ([] : List (Id × BlogPost))).1 = 200
       ∧ (putBlog 0 blogBodyEmpty none ([] : List (Id × BlogPost))).2.1 = none)
    ∧ ((putJob 0 jobBodyEmpty ([] : List (Id × JobPosting))).1 = 200
       ∧ (putJob 0 jobBodyEmpty ([] : List (Id × JobPosting))).2.1 = none) := by
  have h := C2_amended 0 [] [] [] blogBodyEmpty none jobBodyEmpty [] [] rfl rfl
  exact ⟨h.1, h.2.1 rfl, h.2.2 rfl⟩

/-- C5: on jobs.update, `requirements`/`benefits` go through the
comma-string path only — an absent field gives `[]`, a non-empty string
is split on commas with each element trimmed — while an array input,
which jobs.create accepts, is not handled: the handler throws (500) and
the store is left unchanged. -/
theorem C5_jobs_update_normalization (id : Id) (s : String)
    (l : List String) (b : JobBody) (store : List (Id × JobPosting)) :
    normUpdate .absent = Except.ok ([] : List String)
    ∧ (s ≠ "" → normUpdate (.str s) = Except.ok (splitTrim s))
    ∧ normUpdate (.list l) = Except.error ()
    ∧ normCreate (.list l) = l
    ∧ (b.requirements = .list l →
        (putJob id b store).1 = 500 ∧ (putJob id b store).2.2 = store)
    ∧ (b.requirements = .str s → s ≠ "" → b.benefits = .absent →
        (putJob id b store).2.1.map JobPosting.requirements
          = (findById id store).map (fun _ => splitTrim s)) := by
  refine ⟨rfl, ?_, rfl, rfl, ?_, ?_⟩
  · intro h
    simp [normUpdate, h]
  · intro h
    cases hy : normUpdate b.benefits <;>
      simp [putJob, h, hy, normUpdate]
  · intro h1 h2 h3
    simp only [putJob, h1, h3, normUpdate, h2, if_neg h2, findByIdAndUpdate]
    cases findById id store <;> simp [applyJobUpdate]

/-- Instantiation of `C5_jobs_update_normalization` at the store
holding `jobA` and the comma-string "a, b ,c". -/
theorem C5_jobs_update_normalization_witness :
    (putJob 0 { jobBodyEmpty with requirements := .list ["x"] }
        [(0, jobA)]).1 = 500
    ∧ (putJob 0 { jobBodyEmpty with requirements := .str "a, b ,c" }
        [(0, jobA)]).2.1.map JobPosting.requirements = some ["a", "b", "c"] := by
  have h1 := C5_jobs_update_normalization 0 "a, b ,c" ["x"]
    { jobBodyEmpty with requirements := .list ["x"] } [(0, jobA)]
  have h2 := C5_jobs_update_normalization 0 "a, b ,c" ["x"]
    { jobBodyEmpty with requirements := .str "a, b ,c" } [(0, jobA)]
  refine ⟨(h1.2.2.2.2.1 rfl).1, ?_⟩
  have h3 := h2.2.2.2.2.2 rfl (by decide) rfl
  rw [h3]
  decide

/-- C6: a blog or product update with no uploaded file leaves every
stored image URL unchanged; with a file whose upload returned the
(non-empty) `secure_url` `u`, the updated document's image URL is
`u`. -/
theorem C6_image_preservation (id : Id) (bb : BlogBody) (pb : ProductBody)
    (bstore : List (Id × BlogPost)) (pstore : List (Id × Product))
    (u : String) (hu : u ≠ "") :
    ((putBlog id bb none bstore).2.2.map (fun e => (e.1, e.2.image))
       = bstore.map (fun e => (e.1, e.2.image)))
    ∧ ((putProduct id pb none pstore).2.2.map (fun e => (e.1, e.2.image))
       = pstore.map (fun e => (e.1, e.2.image)))
    ∧ (∀ p, findById id bstore = some p →
        (putBlog id bb (some u) bstore).2.1
          = some (applyBlogUpdate (mkBlogUpdateData bb (some u)) p)
        ∧ (applyBlogUpdate (mkBlogUpdateData bb (some u)) p).image = u
        ∧ findById id (putBlog id bb (some u) bstore).2.2
            = (putBlog id bb (some u) bstore).2.1)
    ∧ (∀ q, findById id pstore = some q →
        (putProduct id pb (some u) pstore).2.1.map Product.image = some u
        ∧ findById id (putProduct id pb (some u) pstore).2.2
            = (putProduct id pb (some u) pstore).2.1) := by
  refine ⟨?_, ?_, ?_, ?_⟩
  · simp only [putBlog, findByIdAndUpdate, List.map_map]
    refine List.map_congr_left ?_
    intro e _
    by_cases he : (e.1 == id) = true <;>
      simp [he, applyBlogUpdate, mkBlogUpdateData, Function.comp]
  · simp only [putProduct, findByIdAndUpdate, List.map_map]
    refine List.map_congr_left ?_
    intro e _
    by_cases he : (e.1 == id) = true <;>
      simp [he, applyProductUpdate, Function.comp]
  · intro p hp
    refine ⟨by simp [putBlog, findByIdAndUpdate, hp], ?_, ?_⟩
    · simp [applyBlogUpdate, mkBlogUpdateData, hu]
    · exact findById_findByIdAndUpdate id _ bstore
  · intro q hq
    refine ⟨?_, ?_⟩
    · simp [putProduct, findByIdAndUpdate, hq, applyProductUpdate, hu]
    · exact findById_findByIdAndUpdate id _ pstore

/-- Instantiation of `C6_image_preservation` at one-document stores. -/
theorem C6_image_preservation_witness :
    ((putBlog 1 blogBodyEmpty none [(1, postA)]).2.2.map
        (fun e => (e.1, e.2.image)) = [(1, postA)].map (fun e => (e.1, e.2.image)))
    ∧ ((putBlog 1 blogBodyEmpty (some "https://cdn/x.png")
        [(1, postA)]).2.1.map BlogPost.image).getD "" = "https://cdn/x.png"
    ∧ ((putProduct 1 productBodyEmpty (some "https://cdn/x.png")
        [(1, prodA)]).2.1.map Product.image = some "https://cdn/x.png") := by
  have h := C6_image_preservation 1 blogBodyEmpty productBodyEmpty
    [(1, postA)] [(1, prodA)] "https://cdn/x.png" (by decide)
  refine ⟨h.1, ?_, (h.2.2.2 prodA rfl).1⟩
  have h3 := h.2.2.1 postA rfl
  rw [h3.1]
  rw [show ((some (applyBlogUpdate (mkBlogUpdateData blogBodyEmpty
    (some "https://cdn/x.png")) postA)).map BlogPost.image)
    = some (applyBlogUpdate (mkBlogUpdateData blogBodyEmpty
      (some "https://cdn/x.png")) postA).image from rfl, h3.2.1]
  rfl

/-- C7: blog.get by slug answers 404 with a null document — not 500 —
whenever no published post carries the slug (including when a post with
the slug exists but is unpublished), and answers 200 with the post when
a published one exists. -/
theorem C7_blog_get_by_slug (slug : String) (store : List (Id × BlogPost)) :
    ((∀ p ∈ store.map (·.2), ¬(p.slug = slug ∧ p.published = true)) →
       (getBlogBySlug slug store).1 = 404
       ∧ (getBlogBySlug slug store).2 = none
       ∧ (getBlogBySlug slug store).1 ≠ 500)
    ∧ ((∃ p ∈ store.map (·.2), p.slug = slug ∧ p.published = true) →
       (getBlogBySlug slug store).1 = 200
       ∧ ∃ p, (getBlogBySlug slug store).2 = some p
           ∧ p.slug = slug ∧ p.published = true) := by
  constructor
  · intro h
    have hn : (store.map (·.2)).find?
        (fun p => p.slug == slug && p.published) = none := by
      rw [List.find?_eq_none]
      intro x hx
      simp only [Bool.and_eq_true, beq_iff_eq, not_and]
      intro h1 h2
      exact h x hx ⟨h1, h2⟩
    refine ⟨?_, ?_, ?_⟩ <;> simp [getBlogBySlug, hn]
  · intro h
    obtain ⟨p, hp, h1, h2⟩ := h
    have hs : ∃ x, x ∈ store.map (·.2)
        ∧ (fun p => p.slug == slug && p.published) x = true :=
      ⟨p, hp, by simp [h1, h2]⟩
    obtain ⟨q, hq⟩ := Option.isSome_iff_exists.mp (List.find?_isSome.mpr hs)
    have hpq := List.find?_some hq
    simp only [Bool.and_eq_true, beq_iff_eq] at hpq
    refine ⟨by simp [getBlogBySlug, hq], q, by simp [getBlogBySlug, hq],
      hpq.1, hpq.2⟩

/-- Instantiation of `C7_blog_get_by_slug`: slug "s" against a store
holding only an unpublished post with that slug (404), and against one
holding a published post with it (200). -/
theorem C7_blog_get_by_slug_witness :
    (getBlogBySlug "s" [(1, postUnpub)]).1 = 404
    ∧ (getBlogBySlug "s" [(1, postPub)]).1 = 200 := by
  have h1 := (C7_blog_get_by_slug "s" [(1, postUnpub)]).1
  have h2 := (C7_blog_get_by_slug "s" [(1, postPub)]).2
  refine ⟨(h1 (by decide)).1, (h2 ⟨postPub, by decide, rfl, rfl⟩).1⟩

/-- C8: jobs.create accepts `requirements`/`benefits` either as a list,
stored as-is, or as a comma-separated string, normalized to the list of
trimmed elements; the string "a, b ,c" is stored as exactly
["a", "b", "c"]. -/
theorem C8_jobs_create_normalization (l : List String) (s : String)
    (b : JobBody) (now : Nat) :
    (b.requirements = .list l → (postJobDoc b now).requirements = l)
    ∧ (b.requirements = .str s → s ≠ "" →
        (postJobDoc b now).requirements = splitTrim s)
    ∧ (b.benefits = .list l → (postJobDoc b now).benefits = l)
    ∧ (b.benefits = .str s → s ≠ "" →
        (postJobDoc b now).benefits = splitTrim s)
    ∧ splitTrim "a, b ,c" = ["a", "b", "c"]
    ∧ (b.requirements = .str "a, b ,c" →
        (postJobDoc b now).requirements = ["a", "b", "c"]) := by
  refine ⟨?_, ?_, ?_, ?_, by decide, ?_⟩
  · intro h
    simp [postJobDoc, normCreate, h]
  · intro h hs
    simp [postJobDoc, normCreate, h, hs]
  · intro h
    simp [postJobDoc, normCreate, h]
  · intro h hs
    simp [postJobDoc, normCreate, h, hs]
  · intro h
    simp [postJobDoc, normCreate, h]
    decide

/-- Instantiation of `C8_jobs_create_normalization` at concrete
bodies. -/
theorem C8_jobs_create_normalization_witness :
    (postJobDoc { jobBodyEmpty with requirements := .str "a, b ,c" } 0).requirements
      = ["a", "b", "c"]
    ∧ (postJobDoc { jobBodyEmpty with requirements := .list ["r1", "r2"] } 0).requirements
      = ["r1", "r2"] := by
  have h1 := C8_jobs_create_normalization ["r1", "r2"] "a, b ,c"
    { jobBodyEmpty with requirements := .str "a, b ,c" } 0
  have h2 := C8_jobs_create_normalization ["r1", "r2"] "a, b ,c"
    { jobBodyEmpty with requirements := .list ["r1", "r2"] } 0
  exact ⟨h1.2.2.2.2.2 rfl, h2.1 rfl⟩

/-- C10 fails on the code for the pass-through fields: an update whose
body omits `title` keeps the stored title (Mongoose strips the
`undefined` key from the update), as the two runs below show — the same
omitted-title update maps stored title "A" to "A" and stored title "B"
to "B" — so the image is not the only field preserved when omitted.
The `published` and `tags` parts of the claim do hold (see
`C10_blog_update_defaults`). -/
theorem C10_counterexample :
    (putBlog 1 blogBodyEmpty none [(1, postA)]).2.1.map BlogPost.title
      = some "A"
    ∧ (putBlog 1 blogBodyEmpty none [(1, postB)]).2.1.map BlogPost.title
      = some "B"
    ∧ postA.title ≠ postB.title := by
  decide

/-- C10 amended: on blog.update of an existing post, an omitted
`published` field makes the stored flag false (the post is unpublished)
and an omitted `tags` field makes the stored tag list empty; the image
is preserved when no file is uploaded, and the omitted pass-through
fields title/content/author/excerpt are preserved as well (they are
dropped from the update as `undefined`), not overwritten. -/
theorem C10_blog_update_defaults (id : Id) (b : BlogBody)
    (store : List (Id × BlogPost)) (p : BlogPost)
    (hpub : b.published = none) (htags : b.tags = none)
    (hp : findById id store = some p) :
    ∃ q, (putBlog id b none store).2.1 = some q
      ∧ q.published = false
      ∧ q.tags = []
      ∧ q.image = p.image
      ∧ q.title = b.title.getD p.title
      ∧ q.content = b.content.getD p.content
      ∧ q.author = b.author.getD p.author
      ∧ q.excerpt = b.excerpt.getD p.excerpt := by
  refine ⟨applyBlogUpdate (mkBlogUpdateData b none) p,
    by simp [putBlog, findByIdAndUpdate, hp], ?_⟩
  simp [applyBlogUpdate, mkBlogUpdateData, hpub, htags, coerceFlag, normTags]

/-- Instantiation of `C10_blog_update_defaults` at the one-post store
holding `postA` and the all-absent body. -/
theorem C10_blog_update_defaults_witness :
    ∃ q, (putBlog 1 blogBodyEmpty none [(1, postA)]).2.1 = some q
      ∧ q.published = false
      ∧ q.tags = []
      ∧ q.image = postA.image
      ∧ q.title = blogBodyEmpty.title.getD postA.title
      ∧ q.content = blogBodyEmpty.content.getD postA.content
      ∧ q.author = blogBodyEmpty.author.getD postA.author
      ∧ q.excerpt = blogBodyEmpty.excerpt.getD postA.excerpt :=
  C10_blog_update_defaults 1 blogBodyEmpty [(1, postA)] postA rfl rfl rfl

end PrimeproServer
